import Mathlib

/-!
Verification of the exif-mcp repository's byte-source resolver
(`src/tools/loaders.ts`), segment-option mapper (`src/tools/segments.ts`)
and tool handlers (`src/tools/index.ts`), shallowly embedded in Lean.

JS strings are modelled by `String` (all relevant characters are ASCII, so
JS's UTF-16 `.length` coincides with the code-point count); byte buffers by
`List Nat`; thrown exceptions by `Except String`; the filesystem, the
network and the delegated exifr parser by explicit environment records of
functions.
-/

namespace ExifMcp

/-- Decidable equality for `Except`, used to evaluate resolver results on
concrete inputs. -/
instance {ε α : Type} [DecidableEq ε] [DecidableEq α] : DecidableEq (Except ε α) :=
  fun a b =>
    match a, b with
    | .ok x, .ok y =>
      if h : x = y then .isTrue (by rw [h]) else .isFalse (by simp [h])
    | .error x, .error y =>
      if h : x = y then .isTrue (by rw [h]) else .isFalse (by simp [h])
    | .ok _, .error _ => .isFalse (by simp)
    | .error _, .ok _ => .isFalse (by simp)

/-- JS truthiness test for an optional string field: `!x` is `true` exactly
when the field is `undefined` or the empty string. -/
def strFalsy : Option String → Bool
  | none => true
  | some s => s.data.isEmpty

/-- JS `String.prototype.startsWith`. -/
def jsStartsWith (s pre : String) : Bool := pre.data.isPrefixOf s.data

/-- Helper for `jsSplit`: accumulates the current (reversed) chunk. -/
def jsSplitAux (sep : Char) : List Char → List Char → List (List Char)
  | [], acc => [acc.reverse]
  | c :: cs, acc =>
    if c = sep then acc.reverse :: jsSplitAux sep cs []
    else jsSplitAux sep cs (c :: acc)

/-- JS `String.prototype.split` with a single-character separator. -/
def jsSplit (sep : Char) (s : String) : List String :=
  (jsSplitAux sep s.data []).map String.mk

/-- Value of a character in Node's base64 alphabet (standard plus the
URL-safe `-`/`_` variants, which Node's decoder also accepts); `none` for
characters outside the alphabet. -/
def b64Val (c : Char) : Option Nat :=
  if 'A' ≤ c ∧ c ≤ 'Z' then some (c.toNat - 'A'.toNat)
  else if 'a' ≤ c ∧ c ≤ 'z' then some (c.toNat - 'a'.toNat + 26)
  else if '0' ≤ c ∧ c ≤ '9' then some (c.toNat - '0'.toNat + 52)
  else if c = '+' ∨ c = '-' then some 62
  else if c = '/' ∨ c = '_' then some 63
  else none

/-- The stream of sextets consumed by Node's forgiving base64 decoder
(`Buffer.from(s, 'base64')`): characters outside the alphabet are skipped,
and a `=` stops decoding altogether. -/
def b64Sextets : List Char → List Nat
  | [] => []
  | c :: cs =>
    if c = '=' then []
    else
      match b64Val c with
      | some v => v :: b64Sextets cs
      | none => b64Sextets cs

/-- Bytes produced from a stream of sextets: each complete group of four
sextets yields three bytes; two trailing sextets yield one byte, three yield
two, a single one yields nothing. -/
def b64Bytes : List Nat → List Nat
  | a :: b :: c :: d :: rest =>
    (a * 4 + b / 16) :: (b % 16 * 16 + c / 4) :: (c % 4 * 64 + d) :: b64Bytes rest
  | [a, b] => [a * 4 + b / 16]
  | [a, b, c] => [a * 4 + b / 16, b % 16 * 16 + c / 4]
  | _ => []

/-- Node's `Buffer.from(s, 'base64')`. It never throws on a string. -/
def nodeBase64Decode (s : String) : List Nat := b64Bytes (b64Sextets s.data)

/-- Message of the `TypeError` Node throws for `Buffer.from(undefined, 'base64')`
(reached when a `data:` string has no comma, so `split(',')[1]` is undefined). -/
def bufferFromUndefinedMsg : String :=
  "The first argument must be of type string or an instance of Buffer, ArrayBuffer, or Array or an Array-like Object. Received undefined"

/-- The discriminant of `ImageSourceType` (src/types/image.ts). -/
inductive SourceKind
  | path
  | url
  | base64
  | buffer
deriving DecidableEq, Repr

/-- `ImageSourceType` (src/types/image.ts): a kind plus four optional string
fields. -/
structure ImageSourceType where
  kind : SourceKind
  path : Option String := none
  url : Option String := none
  data : Option String := none
  buffer : Option String := none
deriving DecidableEq, Repr

/-- A `fetch` `Response`, as far as `loadImage` inspects it. -/
structure FetchResponse where
  status : Nat
  statusText : String
  body : List Nat
deriving DecidableEq, Repr

/-- `Response.ok` per the Fetch standard: status in the range 200–299. -/
def FetchResponse.ok (r : FetchResponse) : Bool :=
  200 ≤ r.status && r.status ≤ 299

/-- The effectful environment `loadImage` runs against: `fs.promises.readFile`,
global `fetch` (an `error` models a rejected promise, e.g. a network
failure), and `url.fileURLToPath` (which throws on invalid URLs). Each
`error` carries the thrown `Error`'s message. -/
structure LoadEnv where
  readFile : String → Except String (List Nat)
  fetch : String → Except String FetchResponse
  fileURLToPath : String → Except String String

/-- Body of the `try` block of `loadImage` (src/tools/loaders.ts, lines
13–65): the `switch` over `src.kind`. An `error` is a thrown `Error`'s
message, before the catch-clause wrapping. -/
def loadImageBody (env : LoadEnv) (src : ImageSourceType) : Except String (List Nat) :=
  match src.kind with
  | .path =>
    if strFalsy src.path then .error "Path is required for kind=\"path\""
    else env.readFile (src.path.getD "")
  | .url =>
    if strFalsy src.url then .error "URL is required for kind=\"url\""
    else
      let u := src.url.getD ""
      if jsStartsWith u "file://" then
        match env.fileURLToPath u with
        | .ok p => env.readFile p
        | .error e => .error e
      else
        match env.fetch u with
        | .ok r =>
          if r.ok then .ok r.body
          else .error ("Failed to fetch URL: " ++ toString r.status ++ " " ++ r.statusText)
        | .error e => .error e
  | .base64 =>
    if strFalsy src.data then .error "Data is required for kind=\"base64\""
    else
      let d := src.data.getD ""
      if d.length > 40000000 then
        .error "PayloadTooLarge: Base64 data exceeds 30MB limit"
      else if jsStartsWith d "data:" then
        match (jsSplit ',' d)[1]? with
        | some payload => .ok (nodeBase64Decode payload)
        | none => .error bufferFromUndefinedMsg
      else .ok (nodeBase64Decode d)
  | .buffer =>
    if strFalsy src.buffer then .error "Buffer is required for kind=\"buffer\""
    else .ok (nodeBase64Decode (src.buffer.getD ""))

/-- `loadImage` (src/tools/loaders.ts): the switch body with the catch
clause, which rethrows every `Error` with its message prefixed by
`Failed to load image: ` (everything thrown inside the body is an `Error`). -/
def loadImage (env : LoadEnv) (src : ImageSourceType) : Except String (List Nat) :=
  match loadImageBody env src with
  | .ok b => .ok b
  | .error m => .error ("Failed to load image: " ++ m)

/-- Descriptor helpers mirroring the four tagged shapes. -/
def pathDesc (p : Option String) : ImageSourceType := { kind := .path, path := p }

def urlDesc (u : Option String) : ImageSourceType := { kind := .url, url := u }

def b64Desc (d : Option String) : ImageSourceType := { kind := .base64, data := d }

def bufDesc (b : Option String) : ImageSourceType := { kind := .buffer, buffer := b }

/-- A trivial environment for the pure branches (base64/buffer never touch it). -/
def envTriv : LoadEnv :=
  { readFile := fun _ => .error "ENOENT: no such file or directory"
    fetch := fun _ => .error "fetch failed"
    fileURLToPath := fun _ => .error "Invalid URL" }

example : nodeBase64Decode "QUJD" = [65, 66, 67] := by decide

example : nodeBase64Decode "QUJD,REVG" = [65, 66, 67, 68, 69, 70] := by decide

example : nodeBase64Decode "TQ==" = [77] := by decide

example : jsSplit ',' "data:x,QUJD,REVG" = ["data:x", "QUJD", "REVG"] := by decide

example :
    loadImage envTriv (b64Desc (some "data:image/png;base64,QUJD,REVG")) =
      .ok [65, 66, 67] := by decide

example :
    loadImage envTriv (bufDesc (some "QUJD")) = .ok [65, 66, 67] := by decide

example :
    loadImage envTriv (pathDesc (some "")) =
      .error "Failed to load image: Path is required for kind=\"path\"" := rfl

/-! ## Segment option mapper (src/tools/segments.ts) -/

/-- `SegmentType` (src/tools/segments.ts, line 2). -/
inductive SegmentType
  | EXIF
  | GPS
  | XMP
  | ICC
  | IPTC
  | JFIF
  | IHDR
deriving DecidableEq, Repr

/-- `ExifrOptions` (src/tools/segments.ts, lines 7–17). Every builder in the
file assigns all six segment flags explicitly, so they are modelled as plain
booleans; `multiSegment` and `pick` are set only by some builders, so they
stay optional (`none` = field absent from the record). -/
structure ExifrOptions where
  tiff : Bool
  xmp : Bool
  icc : Bool
  iptc : Bool
  jfif : Bool
  ihdr : Bool
  multiSegment : Option Bool := none
  pick : Option (List String) := none
deriving DecidableEq, Repr

/-- One step of the `segments.forEach` loop of `buildOptions` (lines 48–70):
enable the flag for one requested segment. -/
def enableSegment (o : ExifrOptions) (s : SegmentType) : ExifrOptions :=
  match s with
  | .EXIF | .GPS => { o with tiff := true }
  | .XMP => { o with xmp := true }
  | .ICC => { o with icc := true }
  | .IPTC => { o with iptc := true }
  | .JFIF => { o with jfif := true }
  | .IHDR => { o with ihdr := true }

/-- The all-enabled default record of `buildOptions` (lines 27–34). -/
def allFlagsOn : ExifrOptions :=
  { tiff := true, xmp := true, icc := true, iptc := true, jfif := true, ihdr := true }

/-- The all-disabled starting record of `buildOptions` (lines 38–45). -/
def allFlagsOff : ExifrOptions :=
  { tiff := false, xmp := false, icc := false, iptc := false, jfif := false, ihdr := false }

/-- `buildOptions` (src/tools/segments.ts, lines 24–73): `undefined` or an
empty list yields the all-enabled record; otherwise the requested segments
are enabled starting from the all-disabled record. -/
def buildOptions (segments : Option (List SegmentType)) : ExifrOptions :=
  match segments with
  | none => allFlagsOn
  | some segs =>
    if segs.isEmpty then allFlagsOn
    else segs.foldl enableSegment allFlagsOff

/-- `buildExifOptions` (src/tools/segments.ts, lines 80–90). The spread
`...(pick ? \x7b pick \x7d : \x7b\x7d)` attaches the allow-list whenever the
argument is supplied — a supplied array is truthy in JS even when empty — and
omits the field when the argument is `undefined`. -/
def buildExifOptions (pick : Option (List String)) : ExifrOptions :=
  { tiff := true, xmp := false, icc := false, iptc := false, jfif := false, ihdr := false,
    pick :=
      match pick with
      | some l => some l
      | none => none }

/-- `buildXmpOptions` (src/tools/segments.ts, lines 97–107): the
`multiSegment` field is `extended ?? false`. -/
def buildXmpOptions (extended : Option Bool) : ExifrOptions :=
  { tiff := false, xmp := true, icc := false, iptc := false, jfif := false, ihdr := false,
    multiSegment := some (extended.getD false) }

/-- The argument type of `buildSegmentOptions` (line 114). -/
inductive SubSegment
  | ICC
  | IPTC
  | JFIF
  | IHDR
deriving DecidableEq, Repr

/-- `segment.toLowerCase()` for the four single-segment tools. -/
def SubSegment.lowerKey : SubSegment → String
  | .ICC => "icc"
  | .IPTC => "iptc"
  | .JFIF => "jfif"
  | .IHDR => "ihdr"

/-- The segment's display name, as interpolated into tool messages. -/
def SubSegment.displayName : SubSegment → String
  | .ICC => "ICC"
  | .IPTC => "IPTC"
  | .JFIF => "JFIF"
  | .IHDR => "IHDR"

/-- `buildSegmentOptions` (src/tools/segments.ts, lines 114–128): all flags
off, then `options[segment.toLowerCase()] = true`. -/
def buildSegmentOptions (segment : SubSegment) : ExifrOptions :=
  match segment with
  | .ICC => { allFlagsOff with icc := true }
  | .IPTC => { allFlagsOff with iptc := true }
  | .JFIF => { allFlagsOff with jfif := true }
  | .IHDR => { allFlagsOff with ihdr := true }

/-! ## Tool handlers (src/tools/index.ts)

The handlers delegate the actual parsing to the external exifr library; the
parser's possible answers are injected through an `ExifrApi` record. The
values the parser can return (plain objects, nested records, `undefined`)
are modelled by a small JSON-value type, with `none` standing for a JS
`undefined`/`null` result. `createSuccessResponse` serialises its payload;
the response model keeps the payload as the JSON value itself. -/

/-- JSON-like values returned by the delegated parser. -/
inductive Json where
  | null
  | bool (b : Bool)
  | num (n : Int)
  | str (s : String)
  | obj (fields : List (String × Json))

/-- JS truthiness of a parser-returned value (`!x` tests). An object is
always truthy; `null`, `false`, `0` and the empty string are falsy. -/
def Json.truthy : Json → Bool
  | .null => false
  | .bool b => b
  | .num n => n != 0
  | .str s => !s.data.isEmpty
  | .obj _ => true

/-- Property lookup `m[k]` on a parser-returned object, `none` = undefined. -/
def jsLookup (m : List (String × Json)) (k : String) : Option Json :=
  (m.find? fun p => p.1 == k).map fun p => p.2

/-- `!m[k]`: true when the key is absent or its value is falsy. -/
def jsKeyFalsy (m : List (String × Json)) (k : String) : Bool :=
  match jsLookup m k with
  | none => true
  | some v => !v.truthy

/-- The exifr entry points the tools call (`exifr.parse`, `.orientation`,
`.rotation`, `.gps`, `.thumbnail`). An `error` is a rejected promise with
the thrown message; `ok none` is a fulfilled promise whose value is
`undefined`/`null`. -/
structure ExifrApi where
  parse : List Nat → ExifrOptions → Except String (Option (List (String × Json)))
  orientation : List Nat → Except String (Option Int)
  rotation : List Nat → Except String (Option Json)
  gps : List Nat → Except String (Option Json)
  thumbnail : List Nat → Except String (Option (List Nat))

/-- An MCP tool response: `createSuccessResponse` (no `isError`) or
`createErrorResponse` (`isError: true`) from src/tools/index.ts. -/
inductive McpResponse where
  | success (payload : Json)
  | failure (message : String)

/-- The `read-metadata` handler (src/tools/index.ts, lines 69–84). -/
def readMetadataHandler (api : ExifrApi) (env : LoadEnv) (image : ImageSourceType)
    (segments : Option (List SegmentType)) : McpResponse :=
  match loadImage env image with
  | .error e => .failure ("Error reading metadata: " ++ e)
  | .ok buf =>
    match api.parse buf (buildOptions segments) with
    | .error e => .failure ("Error reading metadata: " ++ e)
    | .ok none => .failure "No metadata found in image"
    | .ok (some m) =>
      if m.isEmpty then .failure "No metadata found in image"
      else .success (.obj m)

/-- The `read-exif` handler (src/tools/index.ts, lines 95–110). -/
def readExifHandler (api : ExifrApi) (env : LoadEnv) (image : ImageSourceType)
    (pick : Option (List String)) : McpResponse :=
  match loadImage env image with
  | .error e => .failure ("Error reading EXIF data: " ++ e)
  | .ok buf =>
    match api.parse buf (buildExifOptions pick) with
    | .error e => .failure ("Error reading EXIF data: " ++ e)
    | .ok none => .failure "No EXIF metadata found in image"
    | .ok (some m) =>
      if m.isEmpty then .failure "No EXIF metadata found in image"
      else .success (.obj m)

/-- The `read-xmp` handler (src/tools/index.ts, lines 121–136): failure when
`!meta || !meta.xmp`. -/
def readXmpHandler (api : ExifrApi) (env : LoadEnv) (image : ImageSourceType)
    (extended : Option Bool) : McpResponse :=
  match loadImage env image with
  | .error e => .failure ("Error reading XMP data: " ++ e)
  | .ok buf =>
    match api.parse buf (buildXmpOptions extended) with
    | .error e => .failure ("Error reading XMP data: " ++ e)
    | .ok none => .failure "No XMP metadata found in image"
    | .ok (some m) =>
      if jsKeyFalsy m "xmp" then .failure "No XMP metadata found in image"
      else .success (.obj m)

/-- The four single-segment handlers `read-icc`/`read-iptc`/`read-jfif`/
`read-ihdr` (src/tools/index.ts, lines 154–170): failure when
`!meta || !meta[segmentKey]`. -/
def readSegmentHandler (api : ExifrApi) (env : LoadEnv) (image : ImageSourceType)
    (seg : SubSegment) : McpResponse :=
  match loadImage env image with
  | .error e => .failure ("Error reading " ++ seg.displayName ++ " data: " ++ e)
  | .ok buf =>
    match api.parse buf (buildSegmentOptions seg) with
    | .error e => .failure ("Error reading " ++ seg.displayName ++ " data: " ++ e)
    | .ok none => .failure ("No " ++ seg.displayName ++ " metadata found in image")
    | .ok (some m) =>
      if jsKeyFalsy m seg.lowerKey then
        .failure ("No " ++ seg.displayName ++ " metadata found in image")
      else .success (.obj m)

/-- The `orientation` handler (src/tools/index.ts, lines 181–195): the check
is `orientation === undefined` (strict), so the payload is wrapped whenever
a value is present. -/
def orientationHandler (api : ExifrApi) (env : LoadEnv)
    (image : ImageSourceType) : McpResponse :=
  match loadImage env image with
  | .error e => .failure ("Error reading orientation: " ++ e)
  | .ok buf =>
    match api.orientation buf with
    | .error e => .failure ("Error reading orientation: " ++ e)
    | .ok none => .failure "No orientation metadata found in image"
    | .ok (some o) => .success (.obj [("orientation", .num o)])

/-- The `rotation-info` handler (src/tools/index.ts, lines 205–219): failure
when `!rotation`. -/
def rotationInfoHandler (api : ExifrApi) (env : LoadEnv)
    (image : ImageSourceType) : McpResponse :=
  match loadImage env image with
  | .error e => .failure ("Error reading rotation info: " ++ e)
  | .ok buf =>
    match api.rotation buf with
    | .error e => .failure ("Error reading rotation info: " ++ e)
    | .ok none => .failure "No rotation metadata found in image"
    | .ok (some r) =>
      if r.truthy then .success r
      else .failure "No rotation metadata found in image"

/-- The `gps-coordinates` handler (src/tools/index.ts, lines 229–239): no
empty-result check at all — `createSuccessResponse(gps || null)`. -/
def gpsCoordinatesHandler (api : ExifrApi) (env : LoadEnv)
    (image : ImageSourceType) : McpResponse :=
  match loadImage env image with
  | .error e => .failure ("Error reading GPS data: " ++ e)
  | .ok buf =>
    match api.gps buf with
    | .error e => .failure ("Error reading GPS data: " ++ e)
    | .ok g =>
      .success
        (match g with
         | some j => if j.truthy then j else .null
         | none => .null)

/-- Standard base64 alphabet, for the thumbnail handler's encoding step. -/
def b64Alphabet : List Char :=
  "ABCDEFGHIJKLMNOPQRSTUVWXYZabcdefghijklmnopqrstuvwxyz0123456789+/".data

/-- Character for a sextet value. -/
def b64Char (n : Nat) : Char := b64Alphabet.getD n 'A'

/-- `Buffer.prototype.toString('base64')`: standard padded base64 encoding. -/
def b64Encode : List Nat → List Char
  | [] => []
  | [a] => [b64Char (a / 4), b64Char (a % 4 * 16), '=', '=']
  | [a, b] => [b64Char (a / 4), b64Char (a % 4 * 16 + b / 16), b64Char (b % 16 * 4), '=']
  | a :: b :: c :: rest =>
    b64Char (a / 4) :: b64Char (a % 4 * 16 + b / 16) :: b64Char (b % 16 * 4 + c / 64) ::
      b64Char (c % 64) :: b64Encode rest

/-- The `thumbnail` handler (src/tools/index.ts, lines 250–275): with the
`url` flag falsy the payload is a data-URL object, otherwise a base64
object; in both cases the extracted bytes are base64-encoded. -/
def thumbnailHandler (api : ExifrApi) (env : LoadEnv) (image : ImageSourceType)
    (url : Option Bool) : McpResponse :=
  match loadImage env image with
  | .error e => .failure ("Error extracting thumbnail: " ++ e)
  | .ok buf =>
    match api.thumbnail buf with
    | .error e => .failure ("Error extracting thumbnail: " ++ e)
    | .ok none => .failure "No thumbnail found in image"
    | .ok (some t) =>
      if !url.getD false then
        .success (.obj [("dataUrl", .str ("data:image/jpeg;base64," ++ String.mk (b64Encode t)))])
      else
        .success (.obj [("base64", .str (String.mk (b64Encode t)))])

example : buildOptions (some [.EXIF]) = { allFlagsOff with tiff := true } := rfl

example : buildOptions (some []) = allFlagsOn := rfl

example : String.mk (b64Encode [77]) = "TQ==" := by decide

/-! ## Characterisation of `buildOptions` on non-empty requests -/

/-- Does this requested segment enable the TIFF flag? -/
def hitsTiff : SegmentType → Bool
  | .EXIF | .GPS => true
  | _ => false

/-- Does this requested segment enable the XMP flag? -/
def hitsXmp : SegmentType → Bool
  | .XMP => true
  | _ => false

/-- Does this requested segment enable the ICC flag? -/
def hitsIcc : SegmentType → Bool
  | .ICC => true
  | _ => false

/-- Does this requested segment enable the IPTC flag? -/
def hitsIptc : SegmentType → Bool
  | .IPTC => true
  | _ => false

/-- Does this requested segment enable the JFIF flag? -/
def hitsJfif : SegmentType → Bool
  | .JFIF => true
  | _ => false

/-- Does this requested segment enable the IHDR flag? -/
def hitsIhdr : SegmentType → Bool
  | .IHDR => true
  | _ => false

/-- The `forEach` loop of `buildOptions` sets each flag to "was already set,
or some requested segment enables it". -/
theorem foldl_enableSegment (l : List SegmentType) (o : ExifrOptions) :
    l.foldl enableSegment o =
      { tiff := o.tiff || l.any hitsTiff, xmp := o.xmp || l.any hitsXmp,
        icc := o.icc || l.any hitsIcc, iptc := o.iptc || l.any hitsIptc,
        jfif := o.jfif || l.any hitsJfif, ihdr := o.ihdr || l.any hitsIhdr,
        multiSegment := o.multiSegment, pick := o.pick } := by
  induction l generalizing o with
  | nil => simp
  | cons s t ih =>
    rw [List.foldl_cons, ih]
    cases s <;>
      simp [enableSegment, hitsTiff, hitsXmp, hitsIcc, hitsIptc, hitsJfif, hitsIhdr,
        Bool.or_assoc]

/-- `buildOptions` on a non-empty request is determined by which flags some
requested segment enables. -/
theorem buildOptions_of_ne_nil {l : List SegmentType} (h : l ≠ []) :
    buildOptions (some l) =
      { tiff := l.any hitsTiff, xmp := l.any hitsXmp, icc := l.any hitsIcc,
        iptc := l.any hitsIptc, jfif := l.any hitsJfif, ihdr := l.any hitsIhdr } := by
  rw [buildOptions, if_neg (by simpa using h), foldl_enableSegment]
  rfl

/-- `List.any` is invariant under permutation. -/
theorem any_perm {α : Type} (p : α → Bool) {l l' : List α} (h : List.Perm l l') :
    l.any p = l'.any p := by
  rw [Bool.eq_iff_iff, List.any_eq_true, List.any_eq_true]
  exact ⟨fun ⟨x, hx, hp⟩ => ⟨x, h.mem_iff.mp hx, hp⟩,
    fun ⟨x, hx, hp⟩ => ⟨x, h.mem_iff.mpr hx, hp⟩⟩

/-- Prepending an element already in the list does not change `List.any`. -/
theorem any_cons_of_mem {α : Type} (p : α → Bool) {s : α} {l : List α} (h : s ∈ l) :
    (s :: l).any p = l.any p := by
  rw [List.any_cons]
  cases hp : p s with
  | false => simp
  | true => simp [List.any_eq_true.mpr ⟨s, h, hp⟩]

/-! ## Claims C5–C7, C10 about the segment option mapper -/

/-- C5: `buildOptions` on the empty list and on an absent argument both
return the record with all six segment flags (tiff, xmp, icc, iptc, jfif,
ihdr) true, and `buildOptions` on the full list
`[EXIF, GPS, XMP, ICC, IPTC, JFIF, IHDR]` returns the same all-true record,
identical to the empty-request case. -/
theorem c5_defaults_all_flags :
    buildOptions (some []) = allFlagsOn ∧
    buildOptions none = allFlagsOn ∧
    buildOptions (some [.EXIF, .GPS, .XMP, .ICC, .IPTC, .JFIF, .IHDR]) = allFlagsOn ∧
    allFlagsOn.tiff = true ∧ allFlagsOn.xmp = true ∧ allFlagsOn.icc = true ∧
    allFlagsOn.iptc = true ∧ allFlagsOn.jfif = true ∧ allFlagsOn.ihdr = true :=
  ⟨rfl, rfl, by decide, rfl, rfl, rfl, rfl, rfl, rfl⟩

/-- C6: `buildOptions [EXIF]` and `buildOptions [GPS]` are identical records
with only the tiff flag true; the result of `buildOptions` is invariant
under permutation of the request list and under prepending a duplicate of an
element already present. -/
theorem c6_tiff_and_invariance :
    buildOptions (some [.EXIF]) = buildOptions (some [.GPS]) ∧
    buildOptions (some [.EXIF]) = { allFlagsOff with tiff := true } ∧
    (∀ l l' : List SegmentType, List.Perm l l' →
      buildOptions (some l) = buildOptions (some l')) ∧
    (∀ (s : SegmentType) (l : List SegmentType), s ∈ l →
      buildOptions (some (s :: l)) = buildOptions (some l)) := by
  refine ⟨rfl, rfl, fun l l' h => ?_, fun s l hs => ?_⟩
  · rcases eq_or_ne l [] with rfl | hl
    · rw [List.eq_nil_of_length_eq_zero (h.length_eq.symm.trans rfl)]
    · have hl' : l' ≠ [] := fun e => hl (by simpa [e] using h.length_eq)
      rw [buildOptions_of_ne_nil hl, buildOptions_of_ne_nil hl',
        any_perm hitsTiff h, any_perm hitsXmp h, any_perm hitsIcc h,
        any_perm hitsIptc h, any_perm hitsJfif h, any_perm hitsIhdr h]
  · have hl : l ≠ [] := List.ne_nil_of_mem hs
    rw [buildOptions_of_ne_nil (List.cons_ne_nil s l), buildOptions_of_ne_nil hl,
      any_cons_of_mem hitsTiff hs, any_cons_of_mem hitsXmp hs,
      any_cons_of_mem hitsIcc hs, any_cons_of_mem hitsIptc hs,
      any_cons_of_mem hitsJfif hs, any_cons_of_mem hitsIhdr hs]

/-- Witness for C6: permutation invariance at `[EXIF, XMP]` vs
`[XMP, EXIF]`, and duplicate idempotence at `GPS :: [GPS]`. -/
theorem c6_tiff_and_invariance_witness :
    buildOptions (some [.EXIF, .XMP]) = buildOptions (some [.XMP, .EXIF]) ∧
    buildOptions (some (.GPS :: [.GPS])) = buildOptions (some [.GPS]) :=
  ⟨c6_tiff_and_invariance.2.2.1 [.EXIF, .XMP] [.XMP, .EXIF] (by decide),
    c6_tiff_and_invariance.2.2.2 .GPS [.GPS] (by decide)⟩

/-- C7: `buildExifOptions` always returns tiff true and xmp, icc, iptc,
jfif, ihdr false; a supplied allow-list is attached verbatim as the `pick`
field, and with no allow-list the `pick` field is absent (not an empty
list). -/
theorem c7_exif_options_shape :
    (∀ p : Option (List String),
      (buildExifOptions p).tiff = true ∧ (buildExifOptions p).xmp = false ∧
      (buildExifOptions p).icc = false ∧ (buildExifOptions p).iptc = false ∧
      (buildExifOptions p).jfif = false ∧ (buildExifOptions p).ihdr = false ∧
      (buildExifOptions p).pick = p) ∧
    buildExifOptions (some ["Make"]) =
      { tiff := true, xmp := false, icc := false, iptc := false, jfif := false,
        ihdr := false, pick := some ["Make"] } ∧
    (buildExifOptions none).pick = none := by
  refine ⟨fun p => ?_, rfl, rfl⟩
  cases p <;> exact ⟨rfl, rfl, rfl, rfl, rfl, rfl, rfl⟩

/-- C10: `buildExifOptions` on an explicitly supplied empty allow-list
attaches `pick = []` to the record (an empty array is truthy in JS, so the
spread includes it); only the absent argument omits the field. -/
theorem c10_empty_pick_attached :
    buildExifOptions (some []) =
      { tiff := true, xmp := false, icc := false, iptc := false, jfif := false,
        ihdr := false, pick := some [] } ∧
    (buildExifOptions (some [])).pick = some [] ∧
    (buildExifOptions none).pick = none :=
  ⟨rfl, rfl, rfl⟩

/-! ## Claim C9: empty payload fields -/

/-- C9: for each of the four tags, a descriptor whose payload field is the
empty string or absent fails with the tag's "required" load error, for every
environment — the empty string behaves exactly like an absent field, and the
filesystem, the network and the base64 decoder are never consulted (the
result does not depend on the environment). -/
theorem c9_empty_field_is_missing :
    ∀ env : LoadEnv,
      loadImage env (pathDesc none) =
        .error "Failed to load image: Path is required for kind=\"path\"" ∧
      loadImage env (pathDesc (some "")) =
        .error "Failed to load image: Path is required for kind=\"path\"" ∧
      loadImage env (urlDesc none) =
        .error "Failed to load image: URL is required for kind=\"url\"" ∧
      loadImage env (urlDesc (some "")) =
        .error "Failed to load image: URL is required for kind=\"url\"" ∧
      loadImage env (b64Desc none) =
        .error "Failed to load image: Data is required for kind=\"base64\"" ∧
      loadImage env (b64Desc (some "")) =
        .error "Failed to load image: Data is required for kind=\"base64\"" ∧
      loadImage env (bufDesc none) =
        .error "Failed to load image: Buffer is required for kind=\"buffer\"" ∧
      loadImage env (bufDesc (some "")) =
        .error "Failed to load image: Buffer is required for kind=\"buffer\"" :=
  fun _ => ⟨rfl, rfl, rfl, rfl, rfl, rfl, rfl, rfl⟩

/-! ## Substring containment (for "message contains X verbatim" properties) -/

/-- Does the haystack contain the needle as a contiguous substring? -/
def listContains (needle : List Char) : List Char → Bool
  | [] => needle.isEmpty
  | c :: cs => needle.isPrefixOf (c :: cs) || listContains needle cs

/-- `strContains hay needle`: JS `hay.includes(needle)`. -/
def strContains (hay needle : String) : Bool := listContains needle.data hay.data

theorem isPrefixOf_self_append (l b : List Char) : l.isPrefixOf (l ++ b) = true := by
  induction l with
  | nil => cases b <;> simp [List.isPrefixOf]
  | cons c cs ih => simp [List.isPrefixOf, ih]

theorem listContains_append_right {n b : List Char} (h : listContains n b = true)
    (a : List Char) : listContains n (a ++ b) = true := by
  induction a with
  | nil => simpa using h
  | cons c cs ih => simp [listContains, ih]

theorem listContains_self_append (n b : List Char) : listContains n (n ++ b) = true := by
  cases n with
  | nil => cases b <;> simp [listContains, List.isPrefixOf]
  | cons c cs => simp [listContains, isPrefixOf_self_append]

theorem listContains_self (n : List Char) : listContains n n = true := by
  simpa using listContains_self_append n []

/-- `String.data` distributes over append. -/
theorem data_append (s t : String) : (s ++ t).data = s.data ++ t.data := rfl

/-! ## Branch lemmas for the resolver -/

/-- The wrapped form of the size-guard error, as surfaced by `loadImage`. -/
def payloadTooLargeWrapped : String :=
  "Failed to load image: PayloadTooLarge: Base64 data exceeds 30MB limit"

/-- The resolver's other fixed (non-environment-derived) failure messages:
the four missing-field errors and the undefined-split error, in their
wrapped forms.  The remaining failures (filesystem, network, invalid file
URL, fetch status line) embed environment-supplied text. -/
def otherLoaderMessages : List String :=
  [ "Failed to load image: Path is required for kind=\"path\"",
    "Failed to load image: URL is required for kind=\"url\"",
    "Failed to load image: Data is required for kind=\"base64\"",
    "Failed to load image: Buffer is required for kind=\"buffer\"",
    "Failed to load image: " ++ bufferFromUndefinedMsg ]

theorem strFalsy_of_ne_nil {s : String} (h : s.data ≠ []) : strFalsy (some s) = false := by
  cases hd : s.data with
  | nil => exact absurd hd h
  | cons a t => simp [strFalsy, hd]

theorem ne_nil_of_length_pos {s : String} (h : s.length > 0) : s.data ≠ [] := by
  intro e
  have h' : s.data.length > 0 := h
  rw [e] at h'
  exact absurd h' (by decide)

theorem b64_over_limit (env : LoadEnv) (s : String) (h : s.length > 40000000) :
    loadImage env (b64Desc (some s)) = .error payloadTooLargeWrapped := by
  have hne : s.data ≠ [] := ne_nil_of_length_pos (by omega)
  simp [loadImage, loadImageBody, b64Desc, strFalsy_of_ne_nil hne, h, payloadTooLargeWrapped]

theorem buf_decode (env : LoadEnv) (s : String) (h : s.data ≠ []) :
    loadImage env (bufDesc (some s)) = .ok (nodeBase64Decode s) := by
  simp [loadImage, loadImageBody, bufDesc, strFalsy_of_ne_nil h]

theorem b64_plain (env : LoadEnv) (s : String) (hpre : jsStartsWith s "data:" = false)
    (hne : s.data ≠ []) (hle : ¬ s.length > 40000000) :
    loadImage env (b64Desc (some s)) = .ok (nodeBase64Decode s) := by
  simp [loadImage, loadImageBody, b64Desc, strFalsy_of_ne_nil hne, hle, hpre]

theorem b64_data_uri (env : LoadEnv) (s payload : String)
    (hpre : jsStartsWith s "data:" = true) (hne : s.data ≠ [])
    (hle : ¬ s.length > 40000000) (hsplit : (jsSplit ',' s)[1]? = some payload) :
    loadImage env (b64Desc (some s)) = .ok (nodeBase64Decode payload) := by
  simp [loadImage, loadImageBody, b64Desc, strFalsy_of_ne_nil hne, hle, hpre, hsplit]

theorem b64_data_uri_none (env : LoadEnv) (s : String)
    (hpre : jsStartsWith s "data:" = true) (hne : s.data ≠ [])
    (hle : ¬ s.length > 40000000) (hsplit : (jsSplit ',' s)[1]? = none) :
    loadImage env (b64Desc (some s)) =
      .error ("Failed to load image: " ++ bufferFromUndefinedMsg) := by
  simp [loadImage, loadImageBody, b64Desc, strFalsy_of_ne_nil hne, hle, hpre, hsplit]

theorem length_mk (l : List Char) : (String.mk l).length = l.length := rfl

/-! ## Claim C2: the 40,000,000-character size guard boundary -/

/-- C2: a base64 descriptor whose string has length exactly 40,000,000 is
never rejected by the size guard (for any environment the result is not the
payload-too-large error), while any strictly longer string fails with
exactly the payload-too-large message; that message carries the
`PayloadTooLarge` marker, which none of the resolver's other fixed failure
messages contains, so it is distinguishable from them by its message. -/
theorem c2_size_guard_boundary :
    (∀ (env : LoadEnv) (s : String), s.length = 40000000 →
      loadImage env (b64Desc (some s)) ≠ .error payloadTooLargeWrapped) ∧
    (∀ (env : LoadEnv) (s : String), s.length > 40000000 →
      loadImage env (b64Desc (some s)) = .error payloadTooLargeWrapped) ∧
    strContains payloadTooLargeWrapped "PayloadTooLarge" = true ∧
    (∀ m ∈ otherLoaderMessages,
      strContains m "PayloadTooLarge" = false ∧ m ≠ payloadTooLargeWrapped) := by
  refine ⟨fun env s h hcontra => ?_, b64_over_limit, by decide, by decide⟩
  have hne : s.data ≠ [] := ne_nil_of_length_pos (by omega)
  have hle : ¬ s.length > 40000000 := by omega
  by_cases hpre : jsStartsWith s "data:" = true
  · cases hsplit : (jsSplit ',' s)[1]? with
    | some p =>
      rw [b64_data_uri env s p hpre hne hle hsplit] at hcontra
      exact Except.noConfusion hcontra
    | none =>
      rw [b64_data_uri_none env s hpre hne hle hsplit] at hcontra
      injection hcontra with h'
      exact absurd h' (by decide)
  · have hpre' : jsStartsWith s "data:" = false := by simpa using hpre
    rw [b64_plain env s hpre' hne hle] at hcontra
    exact Except.noConfusion hcontra

/-- Witness for C2 at concrete strings of 40,000,000 and 40,000,001
characters. -/
theorem c2_size_guard_boundary_witness :
    loadImage envTriv (b64Desc (some (String.mk (List.replicate 40000000 'A')))) ≠
      .error payloadTooLargeWrapped ∧
    loadImage envTriv (b64Desc (some (String.mk (List.replicate 40000001 'A')))) =
      .error payloadTooLargeWrapped ∧
    strContains "Failed to load image: Path is required for kind=\"path\""
      "PayloadTooLarge" = false :=
  ⟨c2_size_guard_boundary.1 envTriv _ (by rw [length_mk, List.length_replicate]),
    c2_size_guard_boundary.2.1 envTriv _ (by rw [length_mk, List.length_replicate]; decide),
    (c2_size_guard_boundary.2.2.2 _ (by decide)).1⟩

/-! ## Claim C3: buffer vs base64 -/

/-- The C3 counterexample string: 40,000,001 characters, over the limit. -/
def overLimitA : String := String.mk (List.replicate 40000001 'A')

/-- Counterexample to C3 as stated: at a 40,000,001-character string (not
starting with `data:`), the buffer kind succeeds while the base64 kind fails
with the payload-too-large error — the two kinds do not fail under the same
conditions, because the size guard applies only to `base64`. -/
theorem c3_counterexample :
    loadImage envTriv (bufDesc (some overLimitA)) ≠
      loadImage envTriv (b64Desc (some overLimitA)) ∧
    loadImage envTriv (b64Desc (some overLimitA)) = .error payloadTooLargeWrapped ∧
    loadImage envTriv (bufDesc (some overLimitA)) = .ok (nodeBase64Decode overLimitA) := by
  have hlen : overLimitA.length > 40000000 := by
    rw [overLimitA, length_mk, List.length_replicate]; decide
  have hne : overLimitA.data ≠ [] := ne_nil_of_length_pos (by omega)
  refine ⟨?_, b64_over_limit envTriv _ hlen, buf_decode envTriv _ hne⟩
  rw [b64_over_limit envTriv _ hlen, buf_decode envTriv _ hne]
  exact fun h => Except.noConfusion h

/-- C3 amended: for strings within the 40,000,000-character limit the two
kinds agree — the same bytes on success, and failure exactly on the empty
string (with tag-specific messages); beyond the limit they diverge, because
only `base64` has the size guard. -/
theorem c3_buffer_base64_agree :
    (∀ (env : LoadEnv) (s : String), jsStartsWith s "data:" = false →
      s.length ≤ 40000000 → s.data ≠ [] →
      loadImage env (bufDesc (some s)) = .ok (nodeBase64Decode s) ∧
      loadImage env (b64Desc (some s)) = .ok (nodeBase64Decode s)) ∧
    (∀ env : LoadEnv,
      loadImage env (bufDesc (some "")) =
        .error "Failed to load image: Buffer is required for kind=\"buffer\"" ∧
      loadImage env (b64Desc (some "")) =
        .error "Failed to load image: Data is required for kind=\"base64\"") ∧
    (∀ (env : LoadEnv) (s : String), s.length > 40000000 →
      loadImage env (bufDesc (some s)) = .ok (nodeBase64Decode s) ∧
      loadImage env (b64Desc (some s)) = .error payloadTooLargeWrapped) := by
  refine ⟨fun env s hpre hle hne => ⟨buf_decode env s hne, b64_plain env s hpre hne (by omega)⟩,
    fun env => ⟨rfl, rfl⟩,
    fun env s h => ⟨buf_decode env s (ne_nil_of_length_pos (by omega)), b64_over_limit env s h⟩⟩

/-- Witness for C3 amended at `"QUJE"`. -/
theorem c3_buffer_base64_agree_witness :
    loadImage envTriv (bufDesc (some "QUJE")) = .ok (nodeBase64Decode "QUJE") ∧
    loadImage envTriv (b64Desc (some "QUJE")) = .ok (nodeBase64Decode "QUJE") :=
  c3_buffer_base64_agree.1 envTriv "QUJE" (by decide) (by decide) (by decide)

/-! ## Claim C4: the data-URI comma split -/

theorem jsSplitAux_sep_split (sep : Char) {pre : List Char} (rest acc : List Char)
    (h : sep ∉ pre) :
    jsSplitAux sep (pre ++ sep :: rest) acc =
      (acc.reverse ++ pre) :: jsSplitAux sep rest [] := by
  induction pre generalizing acc with
  | nil => simp [jsSplitAux]
  | cons c cs ih =>
    have hc : ¬ c = sep := fun e => h (e ▸ List.mem_cons_self c cs)
    simp only [List.cons_append, jsSplitAux, if_neg hc, List.append_eq]
    rw [ih (c :: acc) (fun hm => h (List.mem_cons_of_mem c hm))]
    simp

theorem jsSplitAux_head (sep : Char) (l : List Char) (acc : List Char) :
    ∃ t, jsSplitAux sep l acc =
      (acc.reverse ++ l.takeWhile (fun c => c != sep)) :: t := by
  induction l generalizing acc with
  | nil => exact ⟨[], by simp [jsSplitAux]⟩
  | cons c cs ih =>
    by_cases hc : c = sep
    · subst hc
      refine ⟨jsSplitAux c cs [], ?_⟩
      simp [jsSplitAux, List.takeWhile]
    · obtain ⟨t, ht⟩ := ih (c :: acc)
      refine ⟨t, ?_⟩
      simp only [jsSplitAux, if_neg hc, ht, List.takeWhile]
      have : (c != sep) = true := by simpa using hc
      simp [this]

/-- For a string with a first comma at the boundary `pre ++ "," ++ rest`
(no comma in `pre`), element 1 of the JS split is `rest` truncated at its
next comma. -/
theorem jsSplit_element_one (pre rest : String) (h : ',' ∉ pre.data) :
    (jsSplit ',' (pre ++ "," ++ rest))[1]? =
      some (String.mk (rest.data.takeWhile (fun c => c != ','))) := by
  have hdata : (pre ++ "," ++ rest).data = pre.data ++ ',' :: rest.data := by
    rw [data_append, data_append]
    simp
  rw [jsSplit, hdata, jsSplitAux_sep_split ',' rest.data [] h]
  obtain ⟨t, ht⟩ := jsSplitAux_head ',' rest.data []
  rw [ht]
  simp

/-- The C4 claim's own reading of the data-URI branch, modelled from the
spec sentence: base64-decode everything after the FIRST comma. -/
def dataUriDecodeSpecClaim (s : String) : List Nat :=
  nodeBase64Decode (String.mk ((s.data.dropWhile (fun c => c != ',')).drop 1))

/-- The C4 counterexample input: a data URI whose payload itself contains a
comma. -/
def c4str : String := "data:image/png;base64,QUJD,REVG"

/-- Counterexample to C4 as stated: on a data-URI whose payload contains a
comma, the code decodes only the substring between the first and second
commas (`split(',')[1]`), not everything after the first comma as the claim
says: here the code yields the 3 bytes of `QUJD` while the claim's reading
yields the 6 bytes of `QUJD,REVG` (Node's forgiving decoder skips the
comma). -/
theorem c4_counterexample :
    loadImage envTriv (b64Desc (some c4str)) = .ok [65, 66, 67] ∧
    dataUriDecodeSpecClaim c4str = [65, 66, 67, 68, 69, 70] ∧
    loadImage envTriv (b64Desc (some c4str)) ≠ .ok (dataUriDecodeSpecClaim c4str) :=
  ⟨by decide, by decide, by decide⟩

/-- C4 amended: for base64 descriptors within the size limit, a string not
beginning with `data:` is decoded whole; a string of the form
`pre ++ "," ++ rest` beginning with `data:` (first comma after `pre`) has
exactly the portion of `rest` before its next comma decoded — i.e. the
substring strictly between the first and second commas, not everything
after the first comma. -/
theorem c4_data_uri_split :
    (∀ (env : LoadEnv) (s : String), jsStartsWith s "data:" = false →
      s.data ≠ [] → ¬ s.length > 40000000 →
      loadImage env (b64Desc (some s)) = .ok (nodeBase64Decode s)) ∧
    (∀ (env : LoadEnv) (pre rest : String),
      jsStartsWith (pre ++ "," ++ rest) "data:" = true →
      ',' ∉ pre.data →
      ¬ (pre ++ "," ++ rest).length > 40000000 →
      loadImage env (b64Desc (some (pre ++ "," ++ rest))) =
        .ok (nodeBase64Decode (String.mk (rest.data.takeWhile (fun c => c != ','))))) := by
  refine ⟨b64_plain, fun env pre rest hpre hnc hle => ?_⟩
  have hne : (pre ++ "," ++ rest).data ≠ [] := by
    rw [data_append, data_append]
    simp
  exact b64_data_uri env _ _ hpre hne hle (jsSplit_element_one pre rest hnc)

/-- Witness for C4 at a 31-character data URI with a comma in the payload
and at a plain base64 string. -/
theorem c4_data_uri_split_witness :
    loadImage envTriv (b64Desc (some "QUJE")) = .ok (nodeBase64Decode "QUJE") ∧
    loadImage envTriv (b64Desc (some ("data:image/png;base64" ++ "," ++ "QUJD,REVG"))) =
      .ok (nodeBase64Decode (String.mk ("QUJD,REVG".data.takeWhile (fun c => c != ',')))) :=
  ⟨c4_data_uri_split.1 envTriv "QUJE" (by decide) (by decide) (by decide),
    c4_data_uri_split.2 envTriv "data:image/png;base64" "QUJD,REVG"
      (by decide) (by decide) (by decide)⟩

/-! ## Claim C8: non-2xx fetch responses -/

/-- C8: for a url descriptor with a non-file scheme, a not-ok fetch response
makes resolution fail with a message carrying the numeric status code and
the status text verbatim, wrapped by the load-failure prefix with the
original message preserved. -/
theorem c8_fetch_status_error (env : LoadEnv) (u : String) (r : FetchResponse)
    (hu : strFalsy (some u) = false)
    (hfile : jsStartsWith u "file://" = false)
    (hfetch : env.fetch u = .ok r)
    (hok : r.ok = false) :
    loadImage env (urlDesc (some u)) =
      .error ("Failed to load image: " ++
        ("Failed to fetch URL: " ++ toString r.status ++ " " ++ r.statusText)) ∧
    strContains
      ("Failed to load image: " ++
        ("Failed to fetch URL: " ++ toString r.status ++ " " ++ r.statusText))
      (toString r.status) = true ∧
    strContains
      ("Failed to load image: " ++
        ("Failed to fetch URL: " ++ toString r.status ++ " " ++ r.statusText))
      r.statusText = true := by
  refine ⟨by simp [loadImage, loadImageBody, urlDesc, hu, hfile, hfetch, hok], ?_, ?_⟩
  · simp only [strContains, data_append, List.append_assoc]
    exact listContains_append_right
      (listContains_append_right (listContains_self_append _ _) _) _
  · simp only [strContains, data_append, List.append_assoc]
    exact listContains_append_right (listContains_append_right
      (listContains_append_right (listContains_append_right (listContains_self _) _) _) _) _

/-- An environment whose fetch always answers 404 Not Found. -/
def env404 : LoadEnv :=
  { readFile := fun _ => .error "ENOENT: no such file or directory"
    fetch := fun _ => .ok { status := 404, statusText := "Not Found", body := [] }
    fileURLToPath := fun _ => .error "Invalid URL" }

/-- Witness for C8 at a concrete URL and a 404 response. -/
theorem c8_fetch_status_error_witness :
    loadImage env404 (urlDesc (some "http://example.com/a.jpg")) =
      .error "Failed to load image: Failed to fetch URL: 404 Not Found" := by
  rw [(c8_fetch_status_error env404 "http://example.com/a.jpg" ⟨404, "Not Found", []⟩
    (by decide) (by decide) rfl (by decide)).1]
  decide

/-! ## Claim C1: empty parser results -/

/-- Load environment whose file read yields three bytes. -/
def envOkRead : LoadEnv :=
  { readFile := fun _ => .ok [1, 2, 3]
    fetch := fun _ => .error "fetch failed"
    fileURLToPath := fun _ => .error "Invalid URL" }

/-- Parser stub whose every entry point succeeds with an absent result. -/
def apiEmpty : ExifrApi :=
  { parse := fun _ _ => .ok none
    orientation := fun _ => .ok none
    rotation := fun _ => .ok none
    gps := fun _ => .ok none
    thumbnail := fun _ => .ok none }

/-- Counterexample to C1 as stated: for the gps-coordinates operation, when
the delegated parser succeeds but returns an absent result, the handler
returns a SUCCESS response with a null payload (`createSuccessResponse(gps
|| null)`), not a failure — so "every tool operation" is false. -/
theorem c1_counterexample :
    apiEmpty.gps [1, 2, 3] = .ok none ∧
    gpsCoordinatesHandler apiEmpty envOkRead (pathDesc (some "sample.jpg")) =
      .success .null :=
  ⟨rfl, rfl⟩

/-- C1 amended: for every tool operation EXCEPT gps-coordinates, a
successful parse with an empty or absent result yields a failure response
whose message is the operation's "No ... found in image" line, and a parse
returning `\x7bMake:'X'\x7d` yields a success whose payload deep-equals it;
the gps-coordinates operation instead yields a success response with a null
payload. -/
theorem c1_empty_parse_fails (api : ExifrApi) (env : LoadEnv) (image : ImageSourceType)
    (segments : Option (List SegmentType)) (pick : Option (List String))
    (extended urlFlag : Option Bool) (buf : List Nat)
    (hload : loadImage env image = .ok buf)
    (hparse : ∀ o, api.parse buf o = .ok none)
    (horient : api.orientation buf = .ok none)
    (hrot : api.rotation buf = .ok none)
    (hgps : api.gps buf = .ok none)
    (hthumb : api.thumbnail buf = .ok none) :
    readMetadataHandler api env image segments = .failure "No metadata found in image" ∧
    readExifHandler api env image pick = .failure "No EXIF metadata found in image" ∧
    readXmpHandler api env image extended = .failure "No XMP metadata found in image" ∧
    (∀ seg : SubSegment, readSegmentHandler api env image seg =
      .failure ("No " ++ seg.displayName ++ " metadata found in image")) ∧
    orientationHandler api env image = .failure "No orientation metadata found in image" ∧
    rotationInfoHandler api env image = .failure "No rotation metadata found in image" ∧
    thumbnailHandler api env image urlFlag = .failure "No thumbnail found in image" ∧
    gpsCoordinatesHandler api env image = .success .null ∧
    (∀ api2 : ExifrApi,
      api2.parse buf (buildOptions segments) = .ok (some [("Make", .str "X")]) →
      readMetadataHandler api2 env image segments =
        .success (.obj [("Make", .str "X")])) ∧
    (∀ api3 : ExifrApi, (∀ o, api3.parse buf o = .ok (some [])) →
      readMetadataHandler api3 env image segments = .failure "No metadata found in image" ∧
      readExifHandler api3 env image pick = .failure "No EXIF metadata found in image" ∧
      readXmpHandler api3 env image extended = .failure "No XMP metadata found in image" ∧
      (∀ seg : SubSegment, readSegmentHandler api3 env image seg =
        .failure ("No " ++ seg.displayName ++ " metadata found in image"))) := by
  refine ⟨by simp [readMetadataHandler, hload, hparse],
    by simp [readExifHandler, hload, hparse],
    by simp [readXmpHandler, hload, hparse],
    fun seg => by simp [readSegmentHandler, hload, hparse],
    by simp [orientationHandler, hload, horient],
    by simp [rotationInfoHandler, hload, hrot],
    by simp [thumbnailHandler, hload, hthumb],
    by simp [gpsCoordinatesHandler, hload, hgps],
    fun api2 h2 => by simp [readMetadataHandler, hload, h2],
    fun api3 h3 => ⟨by simp [readMetadataHandler, hload, h3],
      by simp [readExifHandler, hload, h3],
      by simp [readXmpHandler, hload, h3, jsKeyFalsy, jsLookup],
      fun seg => by simp [readSegmentHandler, hload, h3, jsKeyFalsy, jsLookup]⟩⟩

/-- Witness for C1 amended, at a path descriptor, the three-byte read
environment and the always-absent parser stub. -/
theorem c1_empty_parse_fails_witness :
    readMetadataHandler apiEmpty envOkRead (pathDesc (some "sample.jpg")) none =
      .failure "No metadata found in image" ∧
    gpsCoordinatesHandler apiEmpty envOkRead (pathDesc (some "sample.jpg")) =
      .success .null :=
  ⟨(c1_empty_parse_fails apiEmpty envOkRead (pathDesc (some "sample.jpg")) none none
      none none [1, 2, 3] rfl (fun _ => rfl) rfl rfl rfl rfl).1,
    (c1_empty_parse_fails apiEmpty envOkRead (pathDesc (some "sample.jpg")) none none
      none none [1, 2, 3] rfl (fun _ => rfl) rfl rfl rfl rfl).2.2.2.2.2.2.2.1⟩

end ExifMcp
